import Mathlib

/-!
Verification of the authentication/authorization core of the CRT backend

Shallow embedding of the permission-aware JWT pipeline:

* `app/core/jwt.py` — token codec (`create_access_token`, `decode_access_token`)
  on top of a symbolic model of `python-jose` HS256 signing (perfect-MAC model:
  a signature verifies exactly when it was produced over the same payload with
  the same secret; library-internal validation failures are classified as
  `JWTError` values, per the library contract).
* `app/middleware/auth_middleware.py` — the global `AuthMiddleware.dispatch`.
* `app/core/permissions.py` / `app/utils/decorators.py` — the
  `require_permission`/`permission_checker` guard (the two files define the
  same function body; one embedding covers both).
* `app/services/auth_service.py` — `AuthService.login`; the database lookup
  (`UserRepository.get_user_for_login`) and the bcrypt check
  (`verify_password`, whose source file is not in the tree) are abstracted as
  function parameters, since `login` only branches on their results.
* `app/core/dependencies.py` — `get_current_user`.

Machine-level details that the claims do not touch (base64url serialisation,
HMAC internals, JSON surface syntax) are abstracted: a wire token is either a
well-signed payload or malformed, and the mapping from token strings to tokens
is an explicit parameter `interp` of the request-level functions.
-/

namespace CRT

/-- JSON-ish claim values that can occur in the payloads this system builds:
strings, integers, and lists of strings. -/
inductive JValue where
  | str (s : String)
  | num (n : Int)
  | strList (l : List String)
deriving DecidableEq, Repr

/-- A JWT payload: a Python dict with string keys, modelled as an association
list with at most one binding per key (lookups take the first binding). -/
abbrev Claims := List (String × JValue)

/-- Python `d.get(k)` / `d[k]` lookup on a claims dict: first binding wins. -/
def dictGet : Claims → String → Option JValue
  | [], _ => none
  | (k', v) :: rest, k => if k' = k then some v else dictGet rest k

/-- Python `d.update(\x7bk: v\x7d)`: replace the binding of `k` if present, else append. -/
def setKey : Claims → String → JValue → Claims
  | [], k, v => [(k, v)]
  | (k', v') :: rest, k, v =>
      if k' = k then (k, v) :: rest else (k', v') :: setKey rest k v

/-- The whitespace characters Python `str.strip()` removes. -/
def pyIsSpace (c : Char) : Bool :=
  c = ' ' || c = '\t' || c = '\n' || c = '\r' || c.toNat = 11 || c.toNat = 12

/-- Does the character list `s` begin with `pat`? -/
def charsStartWith : List Char → List Char → Bool
  | _, [] => true
  | [], _ :: _ => false
  | c :: cs, d :: ds => c = d && charsStartWith cs ds

/-- Python `s.startswith(pat)`. -/
def pyStartsWith (s pat : String) : Bool :=
  charsStartWith s.data pat.data

/-- Remove leading whitespace from a character list. -/
def dropLeadingSpace : List Char → List Char
  | [] => []
  | c :: cs => if pyIsSpace c then dropLeadingSpace cs else c :: cs

/-- Python `s.strip()`: remove leading and trailing whitespace. -/
def pyStrip (s : String) : String :=
  ⟨(dropLeadingSpace ((dropLeadingSpace s.data).reverse)).reverse⟩

/-- Python `s[n:]` on character counts. -/
def strDropChars (s : String) (n : Nat) : String :=
  ⟨s.data.drop n⟩

/-- Split a character list at every occurrence of `sep`; adjacent separators
yield empty pieces and the empty list yields one empty piece, as Python
`s.split(sep)` does for a one-character separator. -/
def splitOnChar (sep : Char) : List Char → List (List Char)
  | [] => [[]]
  | c :: cs =>
    match splitOnChar sep cs with
    | [] => [[]]
    | h :: t => if c = sep then [] :: h :: t else (c :: h) :: t

/-- Python `s.split(" ")`. -/
def pySplitSpace (s : String) : List String :=
  (splitOnChar ' ' s.data).map String.mk

/-- Accumulate a decimal digit list into a natural number; `none` on the
first non-digit character. -/
def charsToNatAux : List Char → Nat → Option Nat
  | [], acc => some acc
  | c :: cs, acc =>
    if c.isDigit then charsToNatAux cs (acc * 10 + (c.toNat - 48)) else none

/-- Parse a non-empty all-digit character list as a natural number. -/
def charsToNat : List Char → Option Nat
  | [] => none
  | cs => charsToNatAux cs 0

/-- Python `int(s)` on a decimal string: surrounding whitespace and an
optional sign are accepted, anything else raises `ValueError` (`none`). -/
def pyStrToInt (s : String) : Option Int :=
  match (pyStrip s).data with
  | [] => none
  | '-' :: rest => (charsToNat rest).map (fun n => -(n : Int))
  | '+' :: rest => (charsToNat rest).map (fun n => (n : Int))
  | cs => (charsToNat cs).map (fun n => (n : Int))

/-- Python `int(v)` on a claim value: identity on integers, decimal parsing on
strings, `TypeError`/`ValueError` (`none`) otherwise. -/
def pyInt : JValue → Option Int
  | .num n => some n
  | .str s => pyStrToInt s
  | .strList _ => none

/-- Python truthiness of a claim value (`if not v`): empty string, zero and
empty list are falsy. -/
def pyTruthy : JValue → Bool
  | .str s => s ≠ ""
  | .num n => n ≠ 0
  | .strList l => l ≠ []

/-- Does the character list contain `pat` as a contiguous sublist? -/
def charsContainsSub (pat : List Char) : List Char → Bool
  | [] => charsStartWith [] pat
  | c :: cs => charsStartWith (c :: cs) pat || charsContainsSub pat cs

/-- Does `s` contain `sub` as a substring (Python `sub in s` on strings)? -/
def strContainsSub (s sub : String) : Bool :=
  charsContainsSub sub.data s.data

/-- Python `x in v` for a string `x` against a claim value: list membership on
lists, substring test on strings, `TypeError` (`none`) on integers. -/
def pyInMem (x : String) : JValue → Option Bool
  | .strList l => some (decide (x ∈ l))
  | .str s => some (strContainsSub s x)
  | .num _ => none

/-- A wire token. `signed claims key` stands for a serialised JWT whose
payload is `claims` and whose HS256 tag was computed over that payload with
secret `key` (perfect-MAC model); `malformed` stands for any string that is
not a structurally valid signed JWT. -/
inductive Token where
  | signed (claims : Claims) (key : String)
  | malformed (raw : String)
deriving DecidableEq, Repr

/-- The `jose.JWTError` hierarchy, collapsed to the classification points the
codec can reach. -/
inductive JWTError where
  | decodeError
  | signatureError
  | claimsError
  | expiredError
  | immatureError
deriving DecidableEq, Repr

/-- Model of `jose.jwt.encode(claims, key, algorithm=HS256)`. -/
def jwtEncode (key : String) (claims : Claims) : Token :=
  .signed claims key

/-- The registered-claim validation performed by `jose.jwt.decode` after the
signature check, restricted to the claim keys a payload of this system can
carry: `iat` and `nbf` must be integer-coercible when present, `nbf` must not
lie in the future, `exp` must be integer-coercible and not lie strictly in the
past, and `sub` must be a string when present (python-jose `_validate_iat`,
`_validate_nbf`, `_validate_exp`, `_validate_sub`, zero leeway). -/
def validateClaims (claims : Claims) (now : Int) : Except JWTError Unit :=
  match dictGet claims "iat" with
  | some v =>
    match pyInt v with
    | none => .error .claimsError
    | some _ => validateNbf claims now
  | none => validateNbf claims now
where
  validateNbf (claims : Claims) (now : Int) : Except JWTError Unit :=
    match dictGet claims "nbf" with
    | some v =>
      match pyInt v with
      | none => .error .claimsError
      | some nbf => if now < nbf then .error .immatureError else validateExp claims now
    | none => validateExp claims now
  validateExp (claims : Claims) (now : Int) : Except JWTError Unit :=
    match dictGet claims "exp" with
    | some v =>
      match pyInt v with
      | none => .error .claimsError
      | some e => if e < now then .error .expiredError else validateSub claims
    | none => validateSub claims
  validateSub (claims : Claims) : Except JWTError Unit :=
    match dictGet claims "sub" with
    | some (.str _) => .ok ()
    | some _ => .error .claimsError
    | none => .ok ()

/-- Model of `jose.jwt.decode(token, key, algorithms=[HS256])`: structural parse, then
signature verification, then registered-claim validation; raises a `JWTError`
(the `.error` branch) on any failure. -/
def jwtDecode (key : String) (tok : Token) (now : Int) : Except JWTError Claims :=
  match tok with
  | .malformed _ => .error .decodeError
  | .signed claims sigKey =>
    if sigKey = key then
      match validateClaims claims now with
      | .ok _ => .ok claims
      | .error e => .error e
    else .error .signatureError

/-- Source constant `ACCESS_TOKEN_EXPIRE_MINUTES = 60`, converted to seconds of Unix time. -/
def ACCESS_TOKEN_EXPIRE_SECONDS : Int := 60 * 60

/-- Embeds `app/core/jwt.py::create_access_token`: copy the claims, set
`exp = now + 60 minutes`, sign with the server secret. `now` stands for
`datetime.utcnow()` at issue time. -/
def create_access_token (secret : String) (data : Claims) (now : Int) : Token :=
  jwtEncode secret (setKey data "exp" (.num (now + ACCESS_TOKEN_EXPIRE_SECONDS)))

/-- Embeds `app/core/jwt.py::decode_access_token` with its `try/except` made visible:
the outer `Except` layer records which exceptions escape to the caller, and
the function catches every `JWTError` raised by `jwt.decode`, converting it to
`None`; hence the outer layer is always `.ok`. -/
def decode_access_token_caught (secret : String) (tok : Token) (now : Int) :
    Except JWTError (Option Claims) :=
  match jwtDecode secret tok now with
  | .ok payload => .ok (some payload)
  | .error _ => .ok none

/-- Embeds `app/core/jwt.py::decode_access_token` as its callers see it: the decoded
payload, or `none` on any validation failure. -/
def decode_access_token (secret : String) (tok : Token) (now : Int) : Option Claims :=
  match decode_access_token_caught secret tok now with
  | .ok r => r
  | .error _ => none

example : decode_access_token "k" (create_access_token "k" [("sub", .str "7")] 0) 100 =
    some [("sub", .str "7"), ("exp", .num 3600)] := by decide

example : decode_access_token "k" (create_access_token "k2" [("sub", .str "7")] 0) 100 = none := by
  decide

example : decode_access_token "k" (create_access_token "k" [("sub", .str "7")] 0) 5000 = none := by
  decide

/-! Authentication Gate: the embedding of `app/middleware/auth_middleware.py` -/

/-- The identity context the middleware stores in `request.state.user`: a dict
with keys `id` (already coerced to `int`), `role` and `permissions` (claim
values taken verbatim from the payload). -/
structure UserCtx where
  id : Int
  role : JValue
  permissions : JValue
deriving DecidableEq, Repr

/-- The inbound request as the middleware observes it: HTTP method, URL path,
and the raw `Authorization` header (`none` when the header is absent). -/
structure Request where
  method : String
  path : String
  authorization : Option String
deriving DecidableEq, Repr

/-- Constant `PUBLIC_PATHS` from `auth_middleware.py`. -/
def PUBLIC_PATHS : List String :=
  ["/api/auth", "/docs", "/redoc", "/openapi.json", "/health"]

/-- Outcome of one `AuthMiddleware.dispatch` run: a JSON error response with a
status code and `detail` string, a pass-through to `call_next` with the
identity context attached to `request.state` (`none` on the exempt paths,
which attach nothing), or an uncaught Python exception named by its class. -/
inductive GateResult where
  | response (status : Nat) (detail : String)
  | next (user : Option UserCtx)
  | exception (name : String)
deriving DecidableEq, Repr

/-- Embeds `AuthMiddleware.dispatch`. `interp` maps the extracted bearer string to
the wire token it denotes; `secret`/`now` are the server secret and the
validation instant used by `decode_access_token`. The `try/except JWTError`
around the decode call is embedded through `decode_access_token_caught`, whose
outer `Except` layer carries any escaping exception. -/
def dispatch (interp : String → Token) (secret : String) (now : Int)
    (req : Request) : GateResult :=
  if req.method = "OPTIONS" then .next none
  else if PUBLIC_PATHS.any (fun p => pyStartsWith req.path p) then .next none
  else
    match req.authorization with
    | none => .response 401 "Authorization header missing"
    | some h =>
      if h = "" then .response 401 "Authorization header missing"
      else if ¬ pyStartsWith h "Bearer " then .response 401 "Invalid authorization format"
      else
        -- `auth_header.split(" ", 1)[1].strip()`: the first space of a header
        -- with the bearer scheme sits right after "Bearer", so the remainder
        -- is the header minus its first 7 characters, then stripped.
        let token := pyStrip (strDropChars h 7)
        if token = "" then .response 401 "Token not provided"
        else
          match decode_access_token_caught secret (interp token) now with
          | .error _ => .response 401 "Invalid or expired token"
          | .ok payload =>
            -- `if not payload`: falsy for both None and the empty dict.
            match payload with
            | none => .response 401 "Invalid token payload"
            | some p =>
              if p = [] then .response 401 "Invalid token payload"
              else
                match dictGet p "sub" with
                | none => .response 401 "User identity missing in token"
                | some uid =>
                  if ¬ pyTruthy uid then .response 401 "User identity missing in token"
                  else
                    match pyInt uid with
                    | none => .exception "ValueError"
                    | some n =>
                      .next (some
                        { id := n
                          role := (dictGet p "role").getD (.str "USER")
                          permissions := (dictGet p "permissions").getD (.strList []) })

/-! Authorization Gate: the embedding of `require_permission` / `permission_checker`
(`app/core/permissions.py` and `app/utils/decorators.py`, identical bodies) -/

/-- Outcome of one `permission_checker` invocation: allow (`return True`), an
`HTTPException` with status and detail (rendered by FastAPI as a JSON body
with a `detail` field), or an uncaught Python exception. -/
inductive GuardResult where
  | allow
  | httpError (status : Nat) (detail : String)
  | exception (name : String)
deriving DecidableEq, Repr

/-- Embeds `permission_checker` for the guard bound to `(action, resource)`, applied
to `getattr(request.state, "user", None)`. -/
def permission_checker (action resource : String) (user : Option UserCtx) : GuardResult :=
  match user with
  | none => .httpError 401 "Authentication required"
  | some u =>
    if u.role = .str "ADMIN" then .allow
    else
      match pyInMem (action ++ ":" ++ resource) u.permissions with
      | none => .exception "TypeError"
      | some true => .allow
      | some false => .httpError 403 "You do not have permission to perform this action"

/-! Credential Verifier: the embedding of `app/services/auth_service.py::AuthService.login` -/

/-- The user row `UserRepository.get_user_for_login` returns, with the fields
`login` reads (the joined `role.name` flattened to `roleName`). -/
structure DBUser where
  id : Int
  is_active : Bool
  is_verified : Bool
  password_hash : String
  roleName : String
deriving DecidableEq, Repr

/-- Outcome of `AuthService.login`: the success dict (access token, fixed
token type "bearer", role), or an `HTTPException` with status and detail. -/
inductive LoginResult where
  | ok (access_token : Token) (role : String)
  | httpError (status : Nat) (detail : String)
deriving DecidableEq, Repr

/-- The fixed role-to-permissions table hard-coded in `AuthService.login`. -/
def rolePermissions (role_name : String) : List String :=
  if role_name = "ADMIN" then ["admin:*"]
  else if role_name = "COLLEGE_ADMIN" then
    ["view:college_dashboard", "view:students", "view:courses"]
  else if role_name = "TEACHER" then ["view:courses", "create:tests"]
  else if role_name = "STUDENT" then ["view:student_dashboard"]
  else []

/-- Embeds `AuthService.login`. `lookup` abstracts
`UserRepository.get_user_for_login(db, identifier, role_name)` and `verify`
abstracts `verify_password(plain, hashed)` (its module is not in the tree);
`login` only branches on their results. `now` is the issue instant passed
through to `create_access_token`. -/
def login (secret : String) (lookup : String → String → Option DBUser)
    (verify : String → String → Bool) (email password role : String)
    (now : Int) : LoginResult :=
  match lookup email role with
  | none => .httpError 401 "Invalid credentials for selected role"
  | some user =>
    if ¬ user.is_active then .httpError 403 "User account is inactive"
    else if ¬ user.is_verified then .httpError 403 "User account is not verified"
    else if ¬ verify password user.password_hash then .httpError 401 "Invalid credentials"
    else
      let role_name := user.roleName
      .ok
        (create_access_token secret
          [("sub", .str (toString user.id)),
           ("role", .str role_name),
           ("permissions", .strList (rolePermissions role_name))]
          now)
        role_name

/-! Embedding of `app/core/dependencies.py::get_current_user` -/

/-- Outcome of the `get_current_user` dependency: the looked-up user row, an
`HTTPException`, or an uncaught Python exception named by its class. -/
inductive DepResult where
  | ok (user : DBUser)
  | httpError (status : Nat) (detail : String)
  | exception (name : String)
deriving DecidableEq, Repr

/-- Embeds `get_current_user`. `interp` maps the extracted token string to its wire
token; `getById` abstracts `UserRepository().get_by_id(db, v)`, taking the
claim value passed verbatim from `payload["user_id"]`. A missing dict key is
a Python `KeyError`. -/
def get_current_user (interp : String → Token) (secret : String) (now : Int)
    (getById : JValue → Option DBUser) (auth : Option String) : DepResult :=
  match auth with
  | none => .httpError 401 "Access token missing"
  | some a =>
    if a = "" then .httpError 401 "Access token missing"
    else if ¬ pyStartsWith a "Bearer " then .httpError 401 "Access token missing"
    else
      -- `auth.split(" ")[1]`: the element after the first space; the scheme
      -- guard above guarantees at least two pieces, so the IndexError arm
      -- (modelled as the empty string) is unreachable.
      let token :=
        match pySplitSpace a with
        | _ :: t :: _ => t
        | _ => ""
      match decode_access_token secret (interp token) now with
      | none => .httpError 401 "Invalid token"
      | some payload =>
        if payload = [] then .httpError 401 "Invalid token"
        else
          match dictGet payload "user_id" with
          | none => .exception "KeyError"
          | some v =>
            match getById v with
            | none => .httpError 401 "User inactive"
            | some user =>
              if ¬ user.is_active then .httpError 401 "User inactive"
              else .ok user

/-! Helper lemmas -/

/-- Registered-claim validation never succeeds when the `exp` claim is an
integer lying strictly before the validation instant, whatever the other
claims are. -/
theorem validateClaims_ne_ok_of_expired (claims : Claims) (now e : Int)
    (hexp : dictGet claims "exp" = some (.num e)) (hlt : e < now) :
    validateClaims claims now ≠ Except.ok () := by
  have hexpStep : validateClaims.validateExp claims now ≠ Except.ok () := by
    intro h
    unfold validateClaims.validateExp at h
    rw [hexp] at h
    simp [pyInt, hlt] at h
  have hnbfStep : validateClaims.validateNbf claims now ≠ Except.ok () := by
    intro h
    unfold validateClaims.validateNbf at h
    split at h
    · split at h
      · exact Except.noConfusion h
      · split at h
        · exact Except.noConfusion h
        · exact hexpStep h
    · exact hexpStep h
  intro h
  unfold validateClaims at h
  split at h
  · split at h
    · exact Except.noConfusion h
    · exact hnbfStep h
  · exact hnbfStep h

/-- The codec call wrapped in `try/except JWTError` never lets an exception
escape: its exception layer is always `.ok`, carrying exactly the
`Option`-valued result of `decode_access_token`. -/
theorem decode_caught_never_raises (secret : String) (tok : Token) (now : Int) :
    decode_access_token_caught secret tok now =
      Except.ok (decode_access_token secret tok now) := by
  unfold decode_access_token
  cases h : decode_access_token_caught secret tok now with
  | ok r => rfl
  | error e =>
    exfalso
    unfold decode_access_token_caught at h
    split at h <;> exact Except.noConfusion h

/-! Claim theorems -/

/-- Claim C1: for every invocation of the authorization guard bound to
`(action, resource)`: with no identity context attached it rejects with 401;
with a context whose role is the string `ADMIN` it allows unconditionally;
otherwise, with a context whose permissions are a list of strings, it allows
exactly when the literal string `action:resource` is a member of that list
(exact, case-sensitive string equality) and rejects with 403 otherwise. -/
theorem C1_permission_checker_spec (action resource : String) (user : Option UserCtx) :
    (user = none →
      permission_checker action resource user = .httpError 401 "Authentication required") ∧
    (∀ u, user = some u → u.role = .str "ADMIN" →
      permission_checker action resource user = .allow) ∧
    (∀ u l, user = some u → u.role ≠ .str "ADMIN" → u.permissions = .strList l →
      ((action ++ ":" ++ resource) ∈ l →
        permission_checker action resource user = .allow) ∧
      ((action ++ ":" ++ resource) ∉ l →
        permission_checker action resource user =
          .httpError 403 "You do not have permission to perform this action")) := by
  refine ⟨?_, ?_, ?_⟩
  · rintro rfl
    rfl
  · rintro u rfl hrole
    simp [permission_checker, hrole]
  · rintro u l rfl hrole hperm
    constructor
    · intro hmem
      simp [permission_checker, hrole, hperm, pyInMem, hmem]
    · intro hmem
      simp [permission_checker, hrole, hperm, pyInMem, hmem]

/-- Witness for C1 at concrete inputs: no context gives 401; an ADMIN context
is allowed without the permission; a STUDENT context is allowed exactly when
`view:courses` is literally present. -/
theorem C1_permission_checker_spec_witness :
    permission_checker "view" "courses" none = .httpError 401 "Authentication required" ∧
    permission_checker "view" "courses" (some ⟨1, .str "ADMIN", .strList []⟩) = .allow ∧
    permission_checker "view" "courses"
      (some ⟨2, .str "STUDENT", .strList ["view:courses"]⟩) = .allow ∧
    permission_checker "view" "courses"
      (some ⟨3, .str "STUDENT", .strList ["view:Courses"]⟩) =
      .httpError 403 "You do not have permission to perform this action" := by
  refine ⟨(C1_permission_checker_spec "view" "courses" none).1 rfl,
    (C1_permission_checker_spec "view" "courses"
      (some ⟨1, .str "ADMIN", .strList []⟩)).2.1 _ rfl rfl,
    ((C1_permission_checker_spec "view" "courses"
      (some ⟨2, .str "STUDENT", .strList ["view:courses"]⟩)).2.2 _
        ["view:courses"] rfl (by decide) rfl).1 (by decide),
    ((C1_permission_checker_spec "view" "courses"
      (some ⟨3, .str "STUDENT", .strList ["view:Courses"]⟩)).2.2 _
        ["view:Courses"] rfl (by decide) rfl).2 (by decide)⟩

/-- Claim C2: issuing a token with `create_access_token` over claims
`sub`, `role`, `permissions` and validating it with `decode_access_token`
under the same secret strictly before the expiry instant `now + 60 minutes`
yields a payload whose `sub`, `role` and `permissions` fields equal the
issued values unchanged. -/
theorem C2_issue_validate_roundtrip (secret sub role : String) (perms : List String)
    (now now' : Int) (h : now' < now + ACCESS_TOKEN_EXPIRE_SECONDS) :
    ∃ p, decode_access_token secret
        (create_access_token secret
          [("sub", .str sub), ("role", .str role), ("permissions", .strList perms)] now)
        now' = some p ∧
      dictGet p "sub" = some (.str sub) ∧
      dictGet p "role" = some (.str role) ∧
      dictGet p "permissions" = some (.strList perms) := by
  have hnotlt : ¬ (now + ACCESS_TOKEN_EXPIRE_SECONDS < now') := by omega
  refine ⟨[("sub", .str sub), ("role", .str role), ("permissions", .strList perms),
    ("exp", .num (now + ACCESS_TOKEN_EXPIRE_SECONDS))], ?_, by simp [dictGet],
    by simp [dictGet], by simp [dictGet]⟩
  simp [create_access_token, jwtEncode, setKey, decode_access_token,
    decode_access_token_caught, jwtDecode, validateClaims,
    validateClaims.validateNbf, validateClaims.validateExp,
    validateClaims.validateSub, dictGet, pyInt, hnotlt]

/-- Witness for C2 at concrete inputs. -/
theorem C2_issue_validate_roundtrip_witness :
    (100 : Int) < 0 + ACCESS_TOKEN_EXPIRE_SECONDS ∧
    ∃ p, decode_access_token "k"
        (create_access_token "k"
          [("sub", .str "7"), ("role", .str "STUDENT"),
           ("permissions", .strList ["view:student_dashboard"])] 0) 100 = some p ∧
      dictGet p "sub" = some (.str "7") ∧
      dictGet p "role" = some (.str "STUDENT") ∧
      dictGet p "permissions" = some (.strList ["view:student_dashboard"]) :=
  ⟨by decide,
   C2_issue_validate_roundtrip "k" "7" "STUDENT" ["view:student_dashboard"] 0 100 (by decide)⟩

/-- Claim C4: `decode_access_token` either returns the decoded claims or the
failure signal `none`; every `JWTError` the underlying `jwt.decode` raises
(bad signature, malformed token, claim-validation failure) is caught and
turned into `none` — the exception layer of the call is always `.ok`, so
nothing is raised into the caller. -/
theorem C4_decode_failure_signal (secret : String) (tok : Token) (now : Int) :
    (∀ e, jwtDecode secret tok now = .error e →
      decode_access_token_caught secret tok now = .ok none ∧
      decode_access_token secret tok now = none) ∧
    (∀ p, jwtDecode secret tok now = .ok p →
      decode_access_token secret tok now = some p) ∧
    (∀ raw, tok = .malformed raw → decode_access_token secret tok now = none) ∧
    (∀ claims sigKey, tok = .signed claims sigKey → sigKey ≠ secret →
      decode_access_token secret tok now = none) := by
  refine ⟨?_, ?_, ?_, ?_⟩
  · intro e he
    simp [decode_access_token_caught, decode_access_token, he]
  · intro p hp
    simp [decode_access_token_caught, decode_access_token, hp]
  · rintro raw rfl
    rfl
  · rintro claims sigKey rfl hne
    simp [decode_access_token, decode_access_token_caught, jwtDecode, hne]

/-- Witness for C4 at concrete inputs: a wrong-secret token and a malformed
token both decode to the failure signal, and a well-signed token decodes to
its claims. -/
theorem C4_decode_failure_signal_witness :
    decode_access_token "k" (.signed [("sub", .str "7")] "other") 0 = none ∧
    decode_access_token "k" (.malformed "garbage") 0 = none ∧
    decode_access_token "k" (.signed [("sub", .str "7")] "k") 0 =
      some [("sub", .str "7")] := by
  refine ⟨(C4_decode_failure_signal "k" (.signed [("sub", .str "7")] "other") 0).2.2.2
      [("sub", .str "7")] "other" rfl (by decide),
    (C4_decode_failure_signal "k" (.malformed "garbage") 0).2.2.1 "garbage" rfl,
    (C4_decode_failure_signal "k" (.signed [("sub", .str "7")] "k") 0).2.1
      [("sub", .str "7")] (by rfl)⟩

/-- Claim C8: for every signed token whose `exp` claim lies strictly before
the validation instant, `decode_access_token` returns the failure signal, no
matter which key the signature was made with (in particular also when the
signature is correct). -/
theorem C8_expired_token_rejected (secret sigKey : String) (claims : Claims) (now e : Int)
    (hexp : dictGet claims "exp" = some (.num e)) (hlt : e < now) :
    decode_access_token secret (.signed claims sigKey) now = none := by
  by_cases hkey : sigKey = secret
  · have hne := validateClaims_ne_ok_of_expired claims now e hexp hlt
    cases hvc : validateClaims claims now with
    | ok u => cases u; exact absurd hvc hne
    | error err =>
      simp [decode_access_token, decode_access_token_caught, jwtDecode, hkey, hvc]
  · simp [decode_access_token, decode_access_token_caught, jwtDecode, hkey]

/-- Witness for C8 at concrete inputs: an expired token fails validation both
with a correct and with an incorrect signature. -/
theorem C8_expired_token_rejected_witness :
    dictGet [("sub", .str "7"), ("exp", .num 10)] "exp" = some (.num 10) ∧
    (10 : Int) < 50 ∧
    decode_access_token "k" (.signed [("sub", .str "7"), ("exp", .num 10)] "k") 50 = none ∧
    decode_access_token "k" (.signed [("sub", .str "7"), ("exp", .num 10)] "other") 50 = none :=
  ⟨by decide, by decide,
   C8_expired_token_rejected "k" "k" [("sub", .str "7"), ("exp", .num 10)] 50 10
     (by decide) (by decide),
   C8_expired_token_rejected "k" "other" [("sub", .str "7"), ("exp", .num 10)] 50 10
     (by decide) (by decide)⟩

/-- Claim C3: on a non-exempt request (not an OPTIONS preflight, path not on
the public allow-list), the gate returns a 401 JSON response — and so never
reaches the pass-through that attaches an identity context — when (1) the
`Authorization` header is absent, with the header-missing detail; (2) the
header does not begin with the bearer scheme, with the invalid-format detail;
(3) the bearer value is empty after stripping, with the token-not-provided
detail; each check only reachable when the earlier ones passed. -/
theorem C3_gate_precheck_rejections (interp : String → Token) (secret : String)
    (now : Int) (req : Request) (hm : req.method ≠ "OPTIONS")
    (hpub : PUBLIC_PATHS.any (fun p => pyStartsWith req.path p) = false) :
    (req.authorization = none →
      dispatch interp secret now req = .response 401 "Authorization header missing") ∧
    (∀ h, req.authorization = some h → h ≠ "" → ¬ pyStartsWith h "Bearer " →
      dispatch interp secret now req = .response 401 "Invalid authorization format") ∧
    (∀ h, req.authorization = some h → pyStartsWith h "Bearer " →
      pyStrip (strDropChars h 7) = "" →
      dispatch interp secret now req = .response 401 "Token not provided") := by
  refine ⟨?_, ?_, ?_⟩
  · intro ha
    simp [dispatch, hm, hpub, ha]
  · intro h ha hne hsw
    simp [dispatch, hm, hpub, ha, hne, hsw]
  · intro h ha hsw htr
    have hne : h ≠ "" := by
      intro he
      rw [he] at hsw
      exact absurd hsw (by decide)
    simp [dispatch, hm, hpub, ha, hne, hsw, htr]

/-- Witness for C3 at concrete requests on the protected path
`/api/admin/dashboard`: a missing header, a Basic-scheme header, and a bearer
header whose value is blank. -/
theorem C3_gate_precheck_rejections_witness :
    dispatch (fun s => .malformed s) "k" 0 ⟨"GET", "/api/admin/dashboard", none⟩ =
      .response 401 "Authorization header missing" ∧
    dispatch (fun s => .malformed s) "k" 0 ⟨"GET", "/api/admin/dashboard", some "Basic abc"⟩ =
      .response 401 "Invalid authorization format" ∧
    dispatch (fun s => .malformed s) "k" 0 ⟨"GET", "/api/admin/dashboard", some "Bearer   "⟩ =
      .response 401 "Token not provided" :=
  ⟨(C3_gate_precheck_rejections (fun s => .malformed s) "k" 0
      ⟨"GET", "/api/admin/dashboard", none⟩ (by decide) (by decide)).1 rfl,
   (C3_gate_precheck_rejections (fun s => .malformed s) "k" 0
      ⟨"GET", "/api/admin/dashboard", some "Basic abc"⟩ (by decide) (by decide)).2.1
      "Basic abc" rfl (by decide) (by decide),
   (C3_gate_precheck_rejections (fun s => .malformed s) "k" 0
      ⟨"GET", "/api/admin/dashboard", some "Bearer   "⟩ (by decide) (by decide)).2.2
      "Bearer   " rfl (by decide) (by decide)⟩

/-- Claim C5: on a non-exempt request whose bearer token decodes to a
non-empty payload carrying a truthy, integer-coercible `sub` claim, the gate
attaches the identity context — id the integer coercion of `sub`, role the
`role` claim defaulting to the string `USER` when absent, permissions the
`permissions` claim defaulting to the empty list when absent — and passes the
request through; in particular it returns neither an error response nor an
uncaught exception. -/
theorem C5_gate_attaches_context (interp : String → Token) (secret : String)
    (now : Int) (req : Request) (h : String) (p : Claims) (sv : JValue) (n : Int)
    (hm : req.method ≠ "OPTIONS")
    (hpub : PUBLIC_PATHS.any (fun q => pyStartsWith req.path q) = false)
    (ha : req.authorization = some h)
    (hsw : pyStartsWith h "Bearer ")
    (htok : pyStrip (strDropChars h 7) ≠ "")
    (hdec : decode_access_token secret (interp (pyStrip (strDropChars h 7))) now = some p)
    (hpne : p ≠ [])
    (hsub : dictGet p "sub" = some sv)
    (htru : pyTruthy sv = true)
    (hint : pyInt sv = some n) :
    dispatch interp secret now req =
      .next (some
        { id := n
          role := (dictGet p "role").getD (.str "USER")
          permissions := (dictGet p "permissions").getD (.strList []) }) := by
  have hne : h ≠ "" := by
    intro he
    rw [he] at hsw
    exact absurd hsw (by decide)
  simp [dispatch, hm, hpub, ha, hne, hsw, htok, decode_caught_never_raises, hdec,
    hpne, hsub, htru, hint]

/-- Witness for C5: a concrete valid STUDENT token on a protected path ends
in a pass-through with the expected identity context. -/
theorem C5_gate_attaches_context_witness :
    dispatch
      (fun _ => .signed
        [("sub", .str "7"), ("role", .str "STUDENT"),
         ("permissions", .strList ["view:student_dashboard"]), ("exp", .num 3600)] "k")
      "k" 0 ⟨"GET", "/api/student/dashboard", some "Bearer tok"⟩ =
      .next (some
        { id := 7
          role := .str "STUDENT"
          permissions := .strList ["view:student_dashboard"] }) := by
  have hdec : decode_access_token "k"
      ((fun (_ : String) => Token.signed
        [("sub", .str "7"), ("role", .str "STUDENT"),
         ("permissions", .strList ["view:student_dashboard"]), ("exp", .num 3600)] "k")
        (("Bearer tok".drop 7).trim)) 0 =
      some [("sub", .str "7"), ("role", .str "STUDENT"),
            ("permissions", .strList ["view:student_dashboard"]), ("exp", .num 3600)] := by
    decide
  have := C5_gate_attaches_context
    (fun _ => .signed
      [("sub", .str "7"), ("role", .str "STUDENT"),
       ("permissions", .strList ["view:student_dashboard"]), ("exp", .num 3600)] "k")
    "k" 0 ⟨"GET", "/api/student/dashboard", some "Bearer tok"⟩ "Bearer tok"
    [("sub", .str "7"), ("role", .str "STUDENT"),
     ("permissions", .strList ["view:student_dashboard"]), ("exp", .num 3600)]
    (.str "7") 7 (by decide) (by decide) rfl (by decide) (by decide) hdec
    (by decide) (by decide) (by decide) (by decide)
  simpa using this

/-- Claim C10: the `except JWTError` branch of the gate is dead code — the
codec catches every `JWTError` itself — so the gate never answers with the
detail `Invalid or expired token`; every token the codec rejects is reported
as 401 with detail `Invalid token payload`. -/
theorem C10_except_branch_unreachable (interp : String → Token) (secret : String)
    (now : Int) :
    (∀ tok, decode_access_token_caught secret tok now =
      Except.ok (decode_access_token secret tok now)) ∧
    (∀ req, dispatch interp secret now req ≠ .response 401 "Invalid or expired token") ∧
    (∀ req h, req.method ≠ "OPTIONS" →
      PUBLIC_PATHS.any (fun p => pyStartsWith req.path p) = false →
      req.authorization = some h → pyStartsWith h "Bearer " →
      pyStrip (strDropChars h 7) ≠ "" →
      decode_access_token secret (interp (pyStrip (strDropChars h 7))) now = none →
      dispatch interp secret now req = .response 401 "Invalid token payload") := by
  refine ⟨fun tok => decode_caught_never_raises secret tok now, ?_, ?_⟩
  · intro req hcontra
    unfold dispatch at hcontra
    simp only [decode_caught_never_raises] at hcontra
    repeat' split at hcontra
    all_goals
      first
      | exact GateResult.noConfusion hcontra
      | exact absurd hcontra (by decide)
  · intro req h hm hpub ha hsw htok hdec
    have hne : h ≠ "" := by
      intro he
      rw [he] at hsw
      exact absurd hsw (by decide)
    simp [dispatch, hm, hpub, ha, hne, hsw, htok, decode_caught_never_raises, hdec]

/-- Witness for C10: a token signed with the wrong secret is rejected by the
gate with the payload detail, not the dead except-branch detail. -/
theorem C10_except_branch_unreachable_witness :
    dispatch (fun _ => .signed [("sub", .str "7")] "other") "k" 0
      ⟨"GET", "/api/admin/dashboard", some "Bearer tok"⟩ =
      .response 401 "Invalid token payload" ∧
    dispatch (fun _ => .signed [("sub", .str "7")] "other") "k" 0
      ⟨"GET", "/api/admin/dashboard", some "Bearer tok"⟩ ≠
      .response 401 "Invalid or expired token" :=
  ⟨(C10_except_branch_unreachable (fun _ => .signed [("sub", .str "7")] "other") "k" 0).2.2
      ⟨"GET", "/api/admin/dashboard", some "Bearer tok"⟩ "Bearer tok"
      (by decide) (by decide) rfl (by decide) (by decide) (by decide),
   (C10_except_branch_unreachable (fun _ => .signed [("sub", .str "7")] "other") "k" 0).2.1
      ⟨"GET", "/api/admin/dashboard", some "Bearer tok"⟩⟩

/-! Concrete login scenarios used as counterexamples -/

/-- A matched account that is inactive (otherwise in good standing). -/
def inactiveUser : DBUser :=
  { id := 1, is_active := false, is_verified := true, password_hash := "h",
    roleName := "STUDENT" }

/-- A matched account in good standing. -/
def activeUser : DBUser :=
  { id := 1, is_active := true, is_verified := true, password_hash := "h",
    roleName := "STUDENT" }

/-- A repository in which the identifier+role pair matches `inactiveUser`. -/
def lookupInactive : String → String → Option DBUser := fun _ _ => some inactiveUser

/-- A repository in which the identifier+role pair matches `activeUser`. -/
def lookupActive : String → String → Option DBUser := fun _ _ => some activeUser

/-- A repository in which no identifier+role pair matches. -/
def lookupNobody : String → String → Option DBUser := fun _ _ => none

/-- A password check that accepts every password. -/
def verifyAlways : String → String → Bool := fun _ _ => true

/-- A password check that rejects every password. -/
def verifyNever : String → String → Bool := fun _ _ => false

/-- Counterexample to claim C6: a matched but inactive account is rejected by
`AuthService.login` with status 403, not with status 401 as the claim states
for every login failure (the unverified case behaves the same way). -/
theorem C6_counterexample_inactive_is_403 :
    login "k" lookupInactive verifyAlways "a@x.com" "pw" "STUDENT" 0 =
      .httpError 403 "User account is inactive" ∧
    (403 : Nat) ≠ 401 := by
  exact ⟨by decide, by decide⟩

/-- Claim C6 as amended: every failure of `AuthService.login` is an
`HTTPException` (rendered as a JSON body with a `detail` field) whose status
is 401 for the authentication failures — no matching account+role pair, or
password mismatch — and 403 for the account-state failures — inactive or
unverified account — each with its distinct reason. -/
theorem C6_login_failure_statuses (secret : String)
    (lookup : String → String → Option DBUser) (verify : String → String → Bool)
    (email password role : String) (now : Int) :
    (lookup email role = none →
      login secret lookup verify email password role now =
        .httpError 401 "Invalid credentials for selected role") ∧
    (∀ u, lookup email role = some u → u.is_active = false →
      login secret lookup verify email password role now =
        .httpError 403 "User account is inactive") ∧
    (∀ u, lookup email role = some u → u.is_active = true → u.is_verified = false →
      login secret lookup verify email password role now =
        .httpError 403 "User account is not verified") ∧
    (∀ u, lookup email role = some u → u.is_active = true → u.is_verified = true →
      verify password u.password_hash = false →
      login secret lookup verify email password role now =
        .httpError 401 "Invalid credentials") := by
  refine ⟨?_, ?_, ?_, ?_⟩
  · intro hl
    simp [login, hl]
  · intro u hl hact
    simp [login, hl, hact]
  · intro u hl hact hver
    simp [login, hl, hact, hver]
  · intro u hl hact hver hpw
    simp [login, hl, hact, hver, hpw]

/-- Witness for the amended C6 at concrete inputs: all four failure branches
produce the stated status and detail. -/
theorem C6_login_failure_statuses_witness :
    login "k" lookupNobody verifyAlways "a@x.com" "pw" "STUDENT" 0 =
      .httpError 401 "Invalid credentials for selected role" ∧
    login "k" lookupInactive verifyAlways "a@x.com" "pw" "STUDENT" 0 =
      .httpError 403 "User account is inactive" ∧
    login "k" lookupActive verifyNever "a@x.com" "pw" "STUDENT" 0 =
      .httpError 401 "Invalid credentials" :=
  ⟨(C6_login_failure_statuses "k" lookupNobody verifyAlways "a@x.com" "pw" "STUDENT" 0).1
      rfl,
   (C6_login_failure_statuses "k" lookupInactive verifyAlways "a@x.com" "pw" "STUDENT" 0).2.1
      inactiveUser rfl rfl,
   (C6_login_failure_statuses "k" lookupActive verifyNever "a@x.com" "pw" "STUDENT" 0).2.2.2
      activeUser rfl rfl rfl rfl⟩

/-- Counterexample to claim C7: the no-match failure and the bad-password
failure carry different caller-facing details — `Invalid credentials for
selected role` versus `Invalid credentials` — so an observer of the two
responses can tell which condition failed, contrary to the claim that the
messages are identical. -/
theorem C7_counterexample_messages_differ :
    login "k" lookupNobody verifyAlways "a@x.com" "pw" "STUDENT" 0 =
      .httpError 401 "Invalid credentials for selected role" ∧
    login "k" lookupActive verifyNever "a@x.com" "pw" "STUDENT" 0 =
      .httpError 401 "Invalid credentials" ∧
    ("Invalid credentials for selected role" : String) ≠ "Invalid credentials" := by
  exact ⟨by decide, by decide, by decide⟩

/-- Claim C7 as amended: both failures are 401, but their details are the
distinct strings `Invalid credentials for selected role` (no matching
account+role pair) and `Invalid credentials` (password mismatch), so the two
conditions are distinguishable from the responses. -/
theorem C7_login_messages_distinguishable (secret : String)
    (lookup : String → String → Option DBUser) (verify : String → String → Bool)
    (email password role : String) (now : Int) :
    (lookup email role = none →
      login secret lookup verify email password role now =
        .httpError 401 "Invalid credentials for selected role") ∧
    (∀ u, lookup email role = some u → u.is_active = true → u.is_verified = true →
      verify password u.password_hash = false →
      login secret lookup verify email password role now =
        .httpError 401 "Invalid credentials") ∧
    ("Invalid credentials for selected role" : String) ≠ "Invalid credentials" := by
  refine ⟨?_, ?_, by decide⟩
  · intro hl
    simp [login, hl]
  · intro u hl hact hver hpw
    simp [login, hl, hact, hver, hpw]

/-- Witness for the amended C7 at concrete inputs. -/
theorem C7_login_messages_distinguishable_witness :
    login "k" lookupNobody verifyAlways "a@x.com" "pw" "STUDENT" 0 =
      .httpError 401 "Invalid credentials for selected role" ∧
    login "k" lookupActive verifyNever "a@x.com" "pw" "STUDENT" 0 =
      .httpError 401 "Invalid credentials" :=
  ⟨(C7_login_messages_distinguishable "k" lookupNobody verifyAlways
      "a@x.com" "pw" "STUDENT" 0).1 rfl,
   (C7_login_messages_distinguishable "k" lookupActive verifyNever
      "a@x.com" "pw" "STUDENT" 0).2.1 activeUser rfl rfl rfl rfl⟩

/-! Structure of login-issued tokens, and `get_current_user` -/

/-- The payload `AuthService.login` hands to `create_access_token`, after the
codec has set the expiry claim: keys `sub`, `role`, `permissions`, `exp` —
and no key `user_id`. -/
def loginPayload (uid : Int) (role_name : String) (now : Int) : Claims :=
  [("sub", .str (toString uid)), ("role", .str role_name),
   ("permissions", .strList (rolePermissions role_name)),
   ("exp", .num (now + ACCESS_TOKEN_EXPIRE_SECONDS))]

/-- Issuing a token over the three login claims yields a token signed with
the server secret whose payload is `loginPayload`. -/
theorem create_access_token_login_data (secret : String) (uid : Int)
    (role_name : String) (now : Int) :
    create_access_token secret
      [("sub", .str (toString uid)), ("role", .str role_name),
       ("permissions", .strList (rolePermissions role_name))] now =
    .signed (loginPayload uid role_name now) secret := rfl

/-- Every successful `AuthService.login` returns a token signed with the
server secret whose payload is exactly `loginPayload` for the matched user. -/
theorem login_token_shape (secret : String)
    (lookup : String → String → Option DBUser) (verify : String → String → Bool)
    (email password role : String) (now : Int) (tok : Token) (r : String)
    (hlogin : login secret lookup verify email password role now = .ok tok r) :
    ∃ u, lookup email role = some u ∧
      tok = .signed (loginPayload u.id u.roleName now) secret := by
  unfold login at hlogin
  split at hlogin
  · exact LoginResult.noConfusion hlogin
  · next u heq =>
    split at hlogin
    · exact LoginResult.noConfusion hlogin
    · split at hlogin
      · exact LoginResult.noConfusion hlogin
      · split at hlogin
        · exact LoginResult.noConfusion hlogin
        · injection hlogin with h1 h2
          exact ⟨u, heq, h1.symm.trans (create_access_token_login_data secret u.id u.roleName now)⟩

/-- A login-issued token decodes back to its payload at any instant not past
its expiry. -/
theorem decode_loginPayload (secret : String) (uid : Int) (role_name : String)
    (now now' : Int) (hfresh : ¬ (now + ACCESS_TOKEN_EXPIRE_SECONDS < now')) :
    decode_access_token secret (.signed (loginPayload uid role_name now) secret) now' =
      some (loginPayload uid role_name now) := by
  simp [decode_access_token, decode_access_token_caught, jwtDecode, validateClaims,
    validateClaims.validateNbf, validateClaims.validateExp,
    validateClaims.validateSub, loginPayload, dictGet, pyInt, hfresh]

/-- Claim C9: a token issued by `AuthService.login` carries the key `sub` and
never the key `user_id`; feeding such a (still valid) token to the
`get_current_user` dependency makes it raise an uncaught `KeyError` at
`payload` looked up at `user_id` — it neither returns a user nor a 401
response, and the database lookup `getById` (universally quantified here) is
never consulted. -/
theorem C9_get_current_user_keyerror (secret : String)
    (lookup : String → String → Option DBUser) (verify : String → String → Bool)
    (email password role : String) (now now' : Int) (tok : Token) (r : String)
    (interp : String → Token) (a : String) (getById : JValue → Option DBUser)
    (hlogin : login secret lookup verify email password role now = .ok tok r)
    (hane : a ≠ "") (hsw : pyStartsWith a "Bearer ")
    (hinterp : interp (match pySplitSpace a with | _ :: t :: _ => t | _ => "") = tok)
    (hfresh : ¬ (now + ACCESS_TOKEN_EXPIRE_SECONDS < now')) :
    ∃ p, tok = .signed p secret ∧
      (∃ v, dictGet p "sub" = some v) ∧
      dictGet p "user_id" = none ∧
      get_current_user interp secret now' getById (some a) = .exception "KeyError" := by
  obtain ⟨u, hu, htok⟩ := login_token_shape secret lookup verify email password role
    now tok r hlogin
  subst htok
  refine ⟨loginPayload u.id u.roleName now, rfl, ⟨.str (toString u.id), ?_⟩, ?_, ?_⟩
  · simp [loginPayload, dictGet]
  · simp [loginPayload, dictGet]
  · obtain ⟨ts, hts⟩ :
        ∃ ts, (match pySplitSpace a with | _ :: t :: _ => t | _ => "") = ts := ⟨_, rfl⟩
    rw [hts] at hinterp
    have hdec := decode_loginPayload secret u.id u.roleName now now' hfresh
    have hne2 : loginPayload u.id u.roleName now ≠ [] := by simp [loginPayload]
    have huid : dictGet (loginPayload u.id u.roleName now) "user_id" = none := by
      simp [loginPayload, dictGet]
    simp [get_current_user, hane, hsw, hts, hinterp, hdec, hne2, huid]

/-- Witness for C9 at concrete inputs: a freshly issued STUDENT token makes
`get_current_user` raise `KeyError` even though a matching active user row
exists in the database. -/
theorem C9_get_current_user_keyerror_witness :
    login "k" lookupActive verifyAlways "a@x.com" "pw" "STUDENT" 0 =
      .ok (.signed (loginPayload 1 "STUDENT" 0) "k") "STUDENT" ∧
    ∃ p, Token.signed (loginPayload 1 "STUDENT" 0) "k" = .signed p "k" ∧
      (∃ v, dictGet p "sub" = some v) ∧
      dictGet p "user_id" = none ∧
      get_current_user (fun _ => .signed (loginPayload 1 "STUDENT" 0) "k") "k" 100
        (fun _ => some activeUser) (some "Bearer tok") = .exception "KeyError" :=
  ⟨by decide,
   C9_get_current_user_keyerror "k" lookupActive verifyAlways "a@x.com" "pw" "STUDENT"
     0 100 (.signed (loginPayload 1 "STUDENT" 0) "k") "STUDENT"
     (fun _ => .signed (loginPayload 1 "STUDENT" 0) "k") "Bearer tok"
     (fun _ => some activeUser) (by decide) (by decide) (by decide) rfl (by decide)⟩

end CRT
